import Mathlib

/-!
Verification development for the beaver-bootstrap logging configuration and
multi-appender routing engine (src/beaver-bootstrap/src/log.rs,
src/beaver-bootstrap/src/bootstrap.rs, src/beaver-bootstrap/src/serde.rs).

The Rust code is shallowly embedded: pure functions become Lean functions,
the directory-creation side effect of validation is threaded as an explicit
list of created directories, fallible operations return Except, and machine
integers (u64, usize) become Nat (none of the modelled code performs
arithmetic on them, so overflow is irrelevant).
-/

set_option maxRecDepth 4096

/-- Severity levels, from `enum Level` in log.rs.  The declaration order is
Trace, Debug, Info, Warn, Error, Off; `Info` carries the `#[default]`
attribute. -/
inductive Level where
  | trace
  | debug
  | info
  | warn
  | error
  | off
deriving DecidableEq

/-- Default for Level: `Info` has the `#[default]` attribute in log.rs. -/
instance : Inhabited Level := ⟨Level.info⟩

/-- Numeric rank of a severity, following the declaration order of `enum Level`
(Trace < Debug < Info < Warn < Error < Off).  An event is admitted by a
threshold exactly when its rank is at or above the threshold's rank. -/
def levelRank : Level → Nat
  | .trace => 0
  | .debug => 1
  | .info => 2
  | .warn => 3
  | .error => 4
  | .off => 5

/-- ASCII lower-casing of a single character, as used by Rust's
`eq_ignore_ascii_case` (only the letters A-Z are folded). -/
def asciiLower (c : Char) : Char :=
  if 'A' ≤ c ∧ c ≤ 'Z' then Char.ofNat (c.toNat + 32) else c

/-- Model of Rust's `str::eq_ignore_ascii_case`: equal lengths and
character-wise equality up to ASCII case folding. -/
def eqIgnoreAsciiCase (a b : String) : Bool :=
  a.data.map asciiLower == b.data.map asciiLower

/-- Model of `impl FromStr for Level` in log.rs: a chain of
`eq_ignore_ascii_case` guards against the six names, in declaration order,
and `ParseLevelError` otherwise (modelled as `none`; the Rust error type
`ParseLevelError` carries no data). -/
def Level.fromStr (s : String) : Option Level :=
  if eqIgnoreAsciiCase s ("trace") then some .trace
  else if eqIgnoreAsciiCase s ("debug") then some .debug
  else if eqIgnoreAsciiCase s ("info") then some .info
  else if eqIgnoreAsciiCase s ("warn") then some .warn
  else if eqIgnoreAsciiCase s ("error") then some .error
  else if eqIgnoreAsciiCase s ("off") then some .off
  else none

/-- Model of `Level::as_str` in log.rs (also the output of the derived
`Debug` formatting of a `Level`, which prints the variant name). -/
def Level.as_str : Level → String
  | .trace => "Trace"
  | .debug => "Debug"
  | .info => "Info"
  | .warn => "Warn"
  | .error => "Error"
  | .off => "Off"

/-- Model of `Level::as_tracing_level` in log.rs: every variant except `Off`
maps to the corresponding active tracing level; `Off` maps to `None`.  The
tracing crate's `Level` type is modelled by `Level` itself (its value range
is exactly the five active variants). -/
def Level.as_tracing_level : Level → Option Level
  | .off => none
  | l => some l

/-- Model of `struct Logger` in log.rs, field order as declared.  Equality
(`Eq`/`Hash` derives in the source) is structural over all three fields. -/
structure Logger where
  target : String
  level : Level
  name : String
deriving DecidableEq

/-- Quotation of a string as in Rust's `Debug` formatting of `String`
(escaping of embedded special characters is not modelled; the strings
appearing in this development contain none). -/
def quoteStr (s : String) : String := "\"" ++ s ++ "\""

/-- Model of `format!("{:?}", logger)` for a `Logger` (derived `Debug`):
`Logger { target: "…", level: …, name: "…" }` with fields in declaration
order. -/
def reprLogger (l : Logger) : String :=
  "Logger \x7b target: " ++ quoteStr l.target ++ ", level: " ++ Level.as_str l.level ++
    ", name: " ++ quoteStr l.name ++ " \x7d"

/-- Model of `enum BootstrapError` (error.rs), restricted to the variants the
embedded code can produce.  Variants that wrap foreign error objects carry
their message as a `String`. -/
inductive BootstrapError where
  | InvalidConfigValueError (msg : String)
  | MissingConfigValueError (msg : String)
  | LogDirectoryCreationError (msg : String)
  | LogFileCreationError (msg : String)
  | DuplicateLoggerError (msg : String)
  | DuplicateLogFilePathError (path : String)
deriving DecidableEq

/-!
Model of the configuration input and of the serde-derived deserializers.

The external configuration collaborator hands the logging section to serde
as a tree of values; `JValue` models that tree.  Each `deserialize…`
function below models the deserializer that serde derives for the
corresponding struct in log.rs, following serde's documented semantics for
the attributes written in the source:

  - `deny_unknown_fields` on a container rejects any input field name that
    is not a declared field; without it, unknown fields are ignored;
  - `default` on a container fills every absent field from the struct's
    `Default::default()`; without it, an absent non-`Option` field is a
    "missing field" error, while an absent `Option` field becomes `None`;
  - `deserialize_with = "non_empty"` (serde.rs) deserializes a string and
    rejects it when it is empty after trimming;
  - `from = "T"` makes the container deserialize as `T` and convert with
    `From`; the container's own `default`/`deny_unknown_fields` attributes
    are then inert (this is the case for `FileAppenderConfig` and
    `AllLogger` in log.rs);
  - a declared field occurring twice in the input is a "duplicate field"
    error.
-/

/-- Tree of configuration values handed to the deserializers. -/
inductive JValue where
  | null
  | bool (b : Bool)
  | nat (n : Nat)
  | str (s : String)
  | arr (xs : List JValue)
  | obj (fields : List (String × JValue))

/-- First value bound to a field name in an object body. -/
def getField : List (String × JValue) → String → Option JValue
  | [], _ => none
  | (k, v) :: rest, n => if k = n then some v else getField rest n

/-- Field names of an object body, in order. -/
def fieldKeys (fields : List (String × JValue)) : List String :=
  fields.map Prod.fst

/-- Error raised when a declared field name occurs twice in the input
(serde's "duplicate field" error, raised by every derived deserializer). -/
def dupFieldCheck (declared : List String) : List (String × JValue) → Except String Unit
  | [] => .ok ()
  | (k, _) :: rest =>
    if declared.contains k && (fieldKeys rest).contains k then
      .error ("duplicate field " ++ k)
    else dupFieldCheck declared rest

/-- Error raised on the first input field name that is not declared
(serde's behaviour under `deny_unknown_fields`). -/
def unknownFieldCheck (declared : List String) (fields : List (String × JValue)) :
    Except String Unit :=
  match (fieldKeys fields).find? (fun k => !declared.contains k) with
  | some k => .error ("unknown field " ++ k)
  | none => .ok ()

/-- Deserialization of a plain string value. -/
def deString : JValue → Except String String
  | .str s => .ok s
  | _ => .error ("invalid type: expected a string")

/-- Deserialization of a boolean value. -/
def deBool : JValue → Except String Bool
  | .bool b => .ok b
  | _ => .error ("invalid type: expected a boolean")

/-- Deserialization of an unsigned integer value (u64/usize become Nat). -/
def deNat : JValue → Except String Nat
  | .nat n => .ok n
  | _ => .error ("invalid type: expected an integer")

/-- Deserialization of a list of strings (`Vec<String>`). -/
def deStringList : JValue → Except String (List String)
  | .arr xs => xs.mapM deString
  | _ => .error ("invalid type: expected a sequence")

/-- A string is rejected by `non_empty` exactly when it is empty after
trimming, i.e. when every character is whitespace (Rust trims Unicode
whitespace; the strings in this development only involve its ASCII
subset). -/
def isAllWhitespace (s : String) : Bool :=
  s.data.all (fun c => c = ' ' || c = '\t' || c = '\r' || c = '\n')

/-- Model of `non_empty` in serde.rs: deserialize a `String` and reject it
when it is empty after trimming. -/
def non_empty (v : JValue) : Except String String := do
  let s ← deString v
  if isAllWhitespace s then .error ("value must not be empty") else .ok s

/-- Model of the custom `Deserialize` impl for `Level` in log.rs: a string is
deserialized and parsed; a parse failure becomes an unknown-variant error. -/
def deLevel (v : JValue) : Except String Level := do
  let s ← deString v
  match Level.fromStr s with
  | some l => .ok l
  | none => .error ("unknown variant " ++ s)

/-- Deserialization of an `Option`-typed field given the field lookup result:
an absent field is `None`, a present `null` is `None`, otherwise the inner
deserializer runs. -/
def deOptionField (f : JValue → Except String α) : Option JValue → Except String (Option α)
  | none => .ok none
  | some .null => .ok none
  | some v => (f v).map some

/-- Declared fields of `struct Logger`. -/
def loggerFields : List String := ["target", "level", "name"]

/-- Model of the serde-derived deserializer for `struct Logger`
(`#[serde(default, deny_unknown_fields)]`; `target` and `name` use
`deserialize_with = "non_empty"`; absent fields come from
`Logger::default()`, i.e. empty strings and `Level::Info`). -/
def deserializeLogger : JValue → Except String Logger
  | .obj fields => do
    dupFieldCheck loggerFields fields
    unknownFieldCheck loggerFields fields
    let target ← match getField fields "target" with
      | some v => non_empty v
      | none => .ok ""
    let level ← match getField fields "level" with
      | some v => deLevel v
      | none => .ok Level.info
    let name ← match getField fields "name" with
      | some v => non_empty v
      | none => .ok ""
    .ok { target := target, level := level, name := name }
  | _ => .error ("invalid type: expected a map")

/-- Model of `struct AllLoggerSerde` in log.rs. -/
structure AllLoggerSerde where
  loggers : List Logger
  default_level : Level
  default_name : String
deriving DecidableEq

/-- Declared fields of `struct AllLoggerSerde`. -/
def allLoggerSerdeFields : List String := ["loggers", "default_level", "default_name"]

/-- Model of the serde-derived deserializer for `struct AllLoggerSerde`
(`#[serde(default, deny_unknown_fields)]`; `default_name` uses `non_empty`;
absent fields come from `AllLoggerSerde::default()`). -/
def deserializeAllLoggerSerde : JValue → Except String AllLoggerSerde
  | .obj fields => do
    dupFieldCheck allLoggerSerdeFields fields
    unknownFieldCheck allLoggerSerdeFields fields
    let loggers ← match getField fields "loggers" with
      | some (.arr xs) => xs.mapM deserializeLogger
      | some _ => .error ("invalid type: expected a sequence")
      | none => .ok []
    let default_level ← match getField fields "default_level" with
      | some v => deLevel v
      | none => .ok Level.info
    let default_name ← match getField fields "default_name" with
      | some v => non_empty v
      | none => .ok ""
    .ok { loggers := loggers, default_level := default_level, default_name := default_name }
  | _ => .error ("invalid type: expected a map")

/-- Model of `struct AllLogger` in log.rs: the ordered logger registry. -/
structure AllLogger where
  loggers : List Logger
deriving DecidableEq

/-- Model of `impl From<AllLoggerSerde> for AllLogger` in log.rs: the declared
descriptors in order, then the synthesized default descriptor with an empty
target built from `default_level`/`default_name`. -/
def allLoggerFromSerde (s : AllLoggerSerde) : AllLogger :=
  { loggers := s.loggers ++ [{ target := "", level := s.default_level, name := s.default_name }] }

/-- Model of the deserializer for `AllLogger`: because of
`#[serde(from = "AllLoggerSerde")]`, the input is deserialized as
`AllLoggerSerde` and converted; the `default`/`deny_unknown_fields`
attributes written on `AllLogger` itself are inert. -/
def deserializeAllLogger (v : JValue) : Except String AllLogger :=
  (deserializeAllLoggerSerde v).map allLoggerFromSerde

/-- Model of `struct FileAppenderConfigSerde` in log.rs (field order as
declared; u64/usize become Nat). -/
structure FileAppenderConfigSerde where
  enable : Bool
  write_level : Option Level
  file_dir : Option String
  file_max_size : Nat
  file_max_count : Nat
  file_name : String
  logger_names : List String
deriving DecidableEq

/-- Declared fields of `struct FileAppenderConfigSerde`. -/
def fileAppenderSerdeFields : List String :=
  ["enable", "write_level", "file_dir", "file_max_size", "file_max_count",
   "file_name", "logger_names"]

/-- Model of the serde-derived deserializer for `FileAppenderConfigSerde`.
The struct carries no serde attributes, so unknown input fields are
IGNORED (no `deny_unknown_fields`), absent non-`Option` fields are
"missing field" errors (no `default`), and absent `Option` fields become
`None`. -/
def deserializeFileAppenderSerde : JValue → Except String FileAppenderConfigSerde
  | .obj fields => do
    dupFieldCheck fileAppenderSerdeFields fields
    let enable ← match getField fields "enable" with
      | some v => deBool v
      | none => .error ("missing field enable")
    let write_level ← deOptionField deLevel (getField fields "write_level")
    let file_dir ← deOptionField deString (getField fields "file_dir")
    let file_max_size ← match getField fields "file_max_size" with
      | some v => deNat v
      | none => .error ("missing field file_max_size")
    let file_max_count ← match getField fields "file_max_count" with
      | some v => deNat v
      | none => .error ("missing field file_max_count")
    let file_name ← match getField fields "file_name" with
      | some v => deString v
      | none => .error ("missing field file_name")
    let logger_names ← match getField fields "logger_names" with
      | some v => deStringList v
      | none => .error ("missing field logger_names")
    .ok { enable := enable, write_level := write_level, file_dir := file_dir,
          file_max_size := file_max_size, file_max_count := file_max_count,
          file_name := file_name, logger_names := logger_names }
  | _ => .error ("invalid type: expected a map")

/-- Model of `DEFAULT_LOG_FOLDER` in log.rs.  The actual value is
environment-dependent (CARGO_MANIFEST_DIR, or the executable's directory);
the code's final fallback literal is used here.  No theorem in this
development depends on its value. -/
def DEFAULT_LOG_FOLDER : String := "./logs"

/-- Whether a path string is absolute (starts with the separator). -/
def headIsSlash (s : String) : Bool :=
  match s.data with
  | [] => false
  | c :: _ => c = '/'

/-- Whether a path string already ends with the separator. -/
def lastIsSlash (s : String) : Bool :=
  match s.data.getLast? with
  | some c => c = '/'
  | none => false

/-- Model of `PathBuf::from(dir).join(name)` rendered back as a string
(`PathBuf::push` semantics on Unix): an absolute `name` replaces the whole
path; joining onto an empty path yields `name`; a separator is inserted
only when `dir` does not already end with one.  No normalization is
performed. -/
def pathJoin (dir name : String) : String :=
  if headIsSlash name then name
  else if dir = "" then name
  else if lastIsSlash dir then dir ++ name
  else dir ++ "/" ++ name

/-- Model of `struct FileAppenderConfig` in log.rs (the converted form;
`file_path` is the resolved full path, stored as its string rendering). -/
structure FileAppenderConfig where
  enable : Bool
  write_level : Level
  file_dir : String
  file_path : String
  file_max_size : Nat
  file_max_count : Nat
  file_name : String
  logger_names : List String
deriving DecidableEq

/-- Model of `impl From<FileAppenderConfigSerde> for FileAppenderConfig` in
log.rs: an absent `file_dir` falls back to `DEFAULT_LOG_FOLDER`, an absent
`write_level` falls back to `Level::Info`, and `file_path` is the directory
joined with the file name. -/
def fileAppenderFromSerde (s : FileAppenderConfigSerde) : FileAppenderConfig :=
  let log_file_dir := match s.file_dir with
    | some path => path
    | none => DEFAULT_LOG_FOLDER
  let log_level := match s.write_level with
    | some level => level
    | none => Level.info
  { enable := s.enable, write_level := log_level, file_dir := log_file_dir,
    file_path := pathJoin log_file_dir s.file_name,
    file_max_size := s.file_max_size, file_max_count := s.file_max_count,
    file_name := s.file_name, logger_names := s.logger_names }

/-- Model of the deserializer for `FileAppenderConfig`: because of
`#[serde(from = "FileAppenderConfigSerde")]`, the input is deserialized as
`FileAppenderConfigSerde` and converted; the `deny_unknown_fields` and
`default` attributes written on `FileAppenderConfig` itself are inert. -/
def deserializeFileAppenderConfig (v : JValue) : Except String FileAppenderConfig :=
  (deserializeFileAppenderSerde v).map fileAppenderFromSerde

/-- Model of `struct ConsoleAppenderConfig` in log.rs. -/
structure ConsoleAppenderConfig where
  enable : Bool
  write_level : Level
  logger_names : List String
deriving DecidableEq

/-- Declared fields of `struct ConsoleAppenderConfig`. -/
def consoleAppenderFields : List String := ["enable", "write_level", "logger_names"]

/-- Model of the serde-derived deserializer for `ConsoleAppenderConfig`
(`#[serde(default, deny_unknown_fields)]`; absent fields come from
`ConsoleAppenderConfig::default()`: `enable = false`, `write_level = Info`,
`logger_names = []`). -/
def deserializeConsoleAppenderConfig : JValue → Except String ConsoleAppenderConfig
  | .obj fields => do
    dupFieldCheck consoleAppenderFields fields
    unknownFieldCheck consoleAppenderFields fields
    let enable ← match getField fields "enable" with
      | some v => deBool v
      | none => .ok false
    let write_level ← match getField fields "write_level" with
      | some v => deLevel v
      | none => .ok Level.info
    let logger_names ← match getField fields "logger_names" with
      | some v => deStringList v
      | none => .ok []
    .ok { enable := enable, write_level := write_level, logger_names := logger_names }
  | _ => .error ("invalid type: expected a map")

/-- Model of `struct LoggingConfig` in log.rs. -/
structure LoggingConfig where
  all_logger : AllLogger
  file_appenders : List FileAppenderConfig
  console_appender : Option ConsoleAppenderConfig
deriving DecidableEq

/-- Declared fields of `struct LoggingConfig`. -/
def loggingConfigFields : List String := ["all_logger", "file_appenders", "console_appender"]

/-- Model of the serde-derived deserializer for `LoggingConfig`
(`#[serde(deny_unknown_fields)]`, no `default`: the non-`Option` fields
`all_logger` and `file_appenders` are required). -/
def deserializeLoggingConfig : JValue → Except String LoggingConfig
  | .obj fields => do
    dupFieldCheck loggingConfigFields fields
    unknownFieldCheck loggingConfigFields fields
    let all_logger ← match getField fields "all_logger" with
      | some v => deserializeAllLogger v
      | none => .error ("missing field all_logger")
    let file_appenders ← match getField fields "file_appenders" with
      | some (.arr xs) => xs.mapM deserializeFileAppenderConfig
      | some _ => .error ("invalid type: expected a sequence")
      | none => .error ("missing field file_appenders")
    let console_appender ← deOptionField deserializeConsoleAppenderConfig
      (getField fields "console_appender")
    .ok { all_logger := all_logger, file_appenders := file_appenders,
          console_appender := console_appender }
  | _ => .error ("invalid type: expected a map")

/-!
Validation (`LoggingConfig::validate_loggers`, `validate_file_appender`,
`validate_console_appender`, `validate` in log.rs).  The directory-creation
side effect of `FileAppenderConfig::ensure_log_directory` is threaded as an
explicit list of existing directories; creation itself is modelled as
infallible (the `LogDirectoryCreationError` branch wraps an I/O failure
that a pure model cannot produce).
-/

/-- Model of `FileAppenderConfig::ensure_log_directory` acting on the set of
existing directories: create the appender's directory when absent. -/
def ensure_log_directory (fs : List String) (dir : String) : List String :=
  if fs.contains dir then fs else fs ++ [dir]

/-- Model of `format!("wrong logger name {} in appender{:#?}", logger, config)`
in `validate_file_appender`.  The pretty (`{:#?}`) layout of the derived
`Debug` output is abstracted to a single line with the fields in declaration
order. -/
def wrongLoggerMsg (n : String) (cfg : FileAppenderConfig) : String :=
  "wrong logger name " ++ n ++ " in appender" ++
    "FileAppenderConfig \x7b enable: " ++ (if cfg.enable then "true" else "false") ++
    ", write_level: " ++ Level.as_str cfg.write_level ++
    ", file_dir: " ++ quoteStr cfg.file_dir ++
    ", file_path: " ++ quoteStr cfg.file_path ++
    ", file_max_size: " ++ toString cfg.file_max_size ++
    ", file_max_count: " ++ toString cfg.file_max_count ++
    ", file_name: " ++ quoteStr cfg.file_name ++
    ", logger_names: " ++ toString (cfg.logger_names.map quoteStr) ++ " \x7d"

/-- Loop of `LoggingConfig::validate_loggers`: walk the registry in declared
order, keeping the set of descriptors already seen (the `HashSet<&Logger>`;
membership is structural equality over all three fields), and fail on the
first repeat with the repeated descriptor's debug rendering. -/
def validate_loggers_go (seen : List Logger) : List Logger → Except BootstrapError Unit
  | [] => .ok ()
  | l :: rest =>
    if l ∈ seen then .error (.DuplicateLoggerError (reprLogger l))
    else validate_loggers_go (l :: seen) rest

/-- Model of `LoggingConfig::validate_loggers` on the registry's descriptor
list. -/
def validate_loggers (ls : List Logger) : Except BootstrapError Unit :=
  validate_loggers_go [] ls

/-- Raw segments of a path string: the character runs between separator
characters (empty runs included, e.g. around a repeated or trailing
separator). -/
def splitSlash : List Char → List (List Char)
  | [] => [[]]
  | c :: rest =>
    let r := splitSlash rest
    if c = '/' then [] :: r
    else
      match r with
      | [] => [[c]]
      | seg :: segs => (c :: seg) :: segs

/-- Model of `Path::components()` on Unix, which is what `Eq`/`Hash` of
`Path` compare: a leading separator is a root component (encoded as the
segment `/`, which no normal segment can contain), empty segments (repeated
or trailing separators) are dropped, and `.` segments are dropped except a
leading one on a relative path, which is kept as the current-directory
component. -/
def pathComponents (s : String) : List (List Char) :=
  let raw := splitSlash s.data
  let hasRoot := headIsSlash s
  let keepCur := !hasRoot && (raw.head? == some ['.'])
  let core := (raw.filter (fun seg => seg ≠ [])).filter (fun seg => seg ≠ ['.'])
  (if hasRoot then [['/']] else []) ++ (if keepCur then [['.']] else []) ++ core

/-- Loop of `LoggingConfig::validate_file_appender`: for each File appender in
declared order (the enable flag is never consulted), ensure its directory
exists, then check its resolved path against the paths already seen, then
check every name in its `logger_names` against the registry's name set.
The seen-path set is the source's `HashSet<&Path>`, whose membership test
is `Path` equality, i.e. equality of normalized components — not equality
of the rendered strings.  The duplicate-path error carries the rendered
string of the current (later) appender's path, as `to_str` does.
Returns the final directory state together with the verdict. -/
def validate_file_appender_go (nameSet : List String) :
    List FileAppenderConfig → List String → List String →
    (List String × Except BootstrapError Unit)
  | [], fs, _ => (fs, .ok ())
  | cfg :: rest, fs, pathSeen =>
    let fs' := ensure_log_directory fs cfg.file_dir
    if pathSeen.any (fun p => pathComponents p == pathComponents cfg.file_path) then
      (fs', .error (.DuplicateLogFilePathError cfg.file_path))
    else
      match cfg.logger_names.find? (fun n => !nameSet.contains n) with
      | some n => (fs', .error (.InvalidConfigValueError (wrongLoggerMsg n cfg)))
      | none => validate_file_appender_go nameSet rest fs' (cfg.file_path :: pathSeen)

/-- Model of `LoggingConfig::validate_file_appender`, starting from a given
set of existing directories and an empty set of seen paths. -/
def validate_file_appender (nameSet : List String) (cfgs : List FileAppenderConfig)
    (fs : List String) : (List String × Except BootstrapError Unit) :=
  validate_file_appender_go nameSet cfgs fs []

/-- Model of `LoggingConfig::validate_console_appender`: when a console
appender is configured, every name in its `logger_names` must be a declared
logger name (its enable flag is never consulted). -/
def validate_console_appender (nameSet : List String) :
    Option ConsoleAppenderConfig → Except BootstrapError Unit
  | none => .ok ()
  | some cfg =>
    match cfg.logger_names.find? (fun n => !nameSet.contains n) with
    | some n => .error (.InvalidConfigValueError ("wrong logger name " ++ n ++ " in console appender"))
    | none => .ok ()

/-- Model of `LoggingConfig::all_logger_name`: the declared logger names, in
registry order (including the synthesized default). -/
def all_logger_name (cfg : LoggingConfig) : List String :=
  cfg.all_logger.loggers.map Logger.name

/-- Model of `LoggingConfig::validate`: logger-registry duplicate check,
then the File-appender pass, then the console-appender name check.  The
directory state is threaded through and returned alongside the verdict. -/
def LoggingConfig.validate (cfg : LoggingConfig) (fs : List String) :
    (List String × Except BootstrapError Unit) :=
  match validate_loggers cfg.all_logger.loggers with
  | .error e => (fs, .error e)
  | .ok () =>
    match validate_file_appender (all_logger_name cfg) cfg.file_appenders fs with
    | (fs', .error e) => (fs', .error e)
    | (fs', .ok ()) => (fs', validate_console_appender (all_logger_name cfg) cfg.console_appender)

/-!
Route compilation (`Bootstrap::initialize_logging_loggers`,
`initialize_logging_file_tracing`, `initialize_logging_console_tracing` in
bootstrap.rs).  The tracing-subscriber `Targets` filter value is modelled by
the `Targets` structure below, recording exactly the `with_target` /
`with_default` calls the fold in the source performs.  The non-blocking
writer and its worker guard are modelled by the string naming the acquired
resource (the file path, or "stdout").
-/

/-- Model of a `tracing_subscriber::filter::Targets` value as built by the
source: the `(target, level)` pairs passed to `with_target`, in call order,
and the level passed to `with_default` (the last call wins). -/
structure Targets where
  targets : List (String × Level)
  defaultLevel : Option Level
deriving DecidableEq

/-- One step of the fold in `initialize_logging_file_tracing` /
`initialize_logging_console_tracing`: a descriptor with an empty target
becomes the filter's default level, any other descriptor appends a
`(target, level)` pair. -/
def withTargetsStep (acc : Targets) (item : Logger) : Targets :=
  if item.target = "" then { acc with defaultLevel := some item.level }
  else { acc with targets := acc.targets ++ [(item.target, item.level)] }

/-- The fold in the source that turns the resolved subscribed descriptors
into a `Targets` filter. -/
def buildTargets (ls : List Logger) : Targets :=
  ls.foldl withTargetsStep { targets := [], defaultLevel := none }

/-- Modelled from the spec: the admission decision of the compiled `Targets`
filter is implemented by the external tracing-subscriber crate, not by this
repository; per the spec's design rule, an event is admitted when its origin
tag exactly equals some configured target at or above that target's minimum
severity, or otherwise (no configured target equals the tag) when its
severity is at or above the filter's default minimum severity (no default
configured means nothing unmatched is admitted). -/
def Targets.admits (t : Targets) (tag : String) (sev : Level) : Bool :=
  if t.targets.any (fun p => p.1 == tag) then
    t.targets.any (fun p => p.1 == tag && decide (levelRank p.2 ≤ levelRank sev))
  else
    match t.defaultLevel with
    | some d => decide (levelRank d ≤ levelRank sev)
    | none => false

/-- Model of the `HashMap<&str, &Logger>` built in
`initialize_logging_loggers`: names are inserted in registry order and a
later insertion overwrites an earlier one, so lookup finds the last
descriptor bearing the name. -/
def lookupLogger (registry : List Logger) (n : String) : Option Logger :=
  registry.reverse.find? (fun l => l.name == n)

/-- Loop form of the `HashSet` deduplication of an appender's
`logger_names` in the source.  The source iterates the hash set in an
unspecified order; the model keeps the first occurrence of each name in
declared order (no theorem below depends on the order, only on the set). -/
def dedupNamesGo (seen : List String) : List String → List String
  | [] => []
  | n :: rest =>
    if seen.contains n then dedupNamesGo seen rest
    else n :: dedupNamesGo (n :: seen) rest

/-- Deduplication of an appender's `logger_names`. -/
def dedupNames (names : List String) : List String :=
  dedupNamesGo [] names

/-- The subscribed descriptors of an appender: its `logger_names`,
deduplicated, each resolved through the registry map.  The source unwraps
each lookup (validation has already guaranteed that every name resolves);
the model skips unresolvable names, and every theorem about compilation is
read under the validated precondition that all names resolve. -/
def subscribedLoggers (registry : List Logger) (names : List String) : List Logger :=
  (dedupNames names).filterMap (lookupLogger registry)

/-- Model of `Bootstrap::initialize_logging_file_tracing`: reject an `Off`
write level with `InvalidConfigValueError` naming the level, otherwise
acquire the rolling file writer (modelled by the appender's resolved path)
and fold the subscribed descriptors into a `Targets` filter. -/
def init_logging_file_tracing (cfg : FileAppenderConfig) (registry : List Logger) :
    Except BootstrapError (Targets × Level × String) :=
  match Level.as_tracing_level cfg.write_level with
  | none => .error (.InvalidConfigValueError
      ("logging.file_appenders[?].write_level=" ++ Level.as_str cfg.write_level))
  | some level =>
    .ok (buildTargets (subscribedLoggers registry cfg.logger_names), level, cfg.file_path)

/-- Model of `Bootstrap::initialize_logging_console_tracing`: the same
compilation against standard output. -/
def init_logging_console_tracing (cfg : ConsoleAppenderConfig) (registry : List Logger) :
    Except BootstrapError (Targets × Level × String) :=
  match Level.as_tracing_level cfg.write_level with
  | none => .error (.InvalidConfigValueError
      ("logging.console_appender[?].write_level=" ++ Level.as_str cfg.write_level))
  | some level =>
    .ok (buildTargets (subscribedLoggers registry cfg.logger_names), level, ("stdout"))

/-- The File-appender loop of `Bootstrap::initialize_logging_loggers`: only
enabled appenders are compiled and acquire a writer; disabled appenders are
skipped entirely. -/
def init_logging_files (registry : List Logger) :
    List FileAppenderConfig → Except BootstrapError (List (Targets × Level × String))
  | [] => .ok []
  | cfg :: rest =>
    if cfg.enable then do
      let r ← init_logging_file_tracing cfg registry
      let rs ← init_logging_files registry rest
      .ok (r :: rs)
    else init_logging_files registry rest

/-- The console branch of `Bootstrap::initialize_logging_loggers`: the
console appender is compiled only when present and enabled. -/
def init_logging_console (registry : List Logger) :
    Option ConsoleAppenderConfig → Except BootstrapError (Option (Targets × Level × String))
  | none => .ok none
  | some cfg =>
    if cfg.enable then (init_logging_console_tracing cfg registry).map some
    else .ok none

/-!
Concrete configurations used to instantiate the claims.
-/

/-- The descriptor `{name: "db", target: "storage", level: Warn}` from the
spec's routing example. -/
def dbLogger : Logger := { target := "storage", level := .warn, name := "db" }

/-- The descriptor `{name: "default", target: "", level: Info}` from the
spec's routing example. -/
def defaultLogger : Logger := { target := "", level := .info, name := "default" }

/-- Registry holding the two example descriptors. -/
def exampleRegistry : List Logger := [dbLogger, defaultLogger]

/-- An enabled file appender subscribed to both example descriptors. -/
def exampleAppender : FileAppenderConfig :=
  { enable := true, write_level := .info, file_dir := "logs",
    file_path := "logs/app.log", file_max_size := 0, file_max_count := 0,
    file_name := "app.log", logger_names := ["db", "default"] }

/-- Serde form of a file appender writing `app.log` under `logs`. -/
def c4SerdeA : FileAppenderConfigSerde :=
  { enable := true, write_level := some .info, file_dir := some ("logs"),
    file_max_size := 0, file_max_count := 0, file_name := "app.log",
    logger_names := [] }

/-- The same appender, with the directory changed from `logs` to `logs/`:
a different configured directory string that resolves to the same
`full_path`. -/
def c4SerdeB : FileAppenderConfigSerde :=
  { c4SerdeA with file_dir := some ("logs/") }

/-- The same appender, with the directory changed from `logs` to `logs//`:
the resolved path `logs//app.log` is a different string from
`logs/app.log`, yet the same path component-wise. -/
def c4SerdeC : FileAppenderConfigSerde :=
  { c4SerdeA with file_dir := some ("logs//") }

/-- An enabled console appender subscribed to both example descriptors. -/
def exampleConsoleAppender : ConsoleAppenderConfig :=
  { enable := true, write_level := .info, logger_names := ["db", "default"] }

/-- Configuration for the C5 counterexample: the registry declares only the
name `app` (plus the synthesized default `root`); the first appender is
well-formed, the second both collides with the first appender's resolved
path and references the unknown logger name `ghost`. -/
def c5Appender1 : FileAppenderConfig :=
  { enable := true, write_level := .info, file_dir := "logs",
    file_path := "logs/a.log", file_max_size := 0, file_max_count := 0,
    file_name := "a.log", logger_names := ["app"] }

/-- The colliding appender of the C5 counterexample, referencing the unknown
name `ghost`. -/
def c5Appender2 : FileAppenderConfig :=
  { enable := true, write_level := .info, file_dir := "logs",
    file_path := "logs/a.log", file_max_size := 0, file_max_count := 0,
    file_name := "a.log", logger_names := ["ghost"] }

/-- The full C5 counterexample configuration. -/
def c5Config : LoggingConfig :=
  { all_logger := { loggers := [{ target := "", level := .info, name := "app" }] },
    file_appenders := [c5Appender1, c5Appender2],
    console_appender := none }

/-- A file-appender input object carrying every required field. -/
def fileAppenderInputFields : List (String × JValue) :=
  [("enable", .bool true), ("file_max_size", .nat 0), ("file_max_count", .nat 0),
   ("file_name", .str ("a.log")), ("logger_names", .arr [])]

/-- The C6 failing input: a file-appender object with every required field
plus the undeclared field `bogus`. -/
def c6FileInput : JValue :=
  .obj (fileAppenderInputFields ++ [("bogus", .nat 1)])

/-- A file-appender input missing only `file_max_size` (for C7). -/
def c7MissingSizeInput : JValue :=
  .obj [("enable", .bool true), ("file_max_count", .nat 0),
        ("file_name", .str ("a.log")), ("logger_names", .arr [])]

/-- A logger-descriptor input whose `target` is explicitly the empty string
(for C8). -/
def c8EmptyTargetInput : JValue :=
  .obj [("name", .str ("db")), ("target", .str ("")), ("level", .str ("warn"))]

/-- A logger-descriptor input whose `name` is explicitly the empty string. -/
def c8EmptyNameInput : JValue :=
  .obj [("name", .str ("")), ("target", .str ("storage")), ("level", .str ("warn"))]

/-- A logger-descriptor input with no `target` field at all. -/
def c8AbsentTargetInput : JValue :=
  .obj [("name", .str ("db")), ("level", .str ("warn"))]

/-- Level of the last empty-target descriptor of a list, if any: the value
`with_default` ends up holding after the fold (a later call overwrites an
earlier one). -/
def lastDefaultLevel : List Logger → Option Level
  | [] => none
  | l :: ls =>
    match lastDefaultLevel ls with
    | some d => some d
    | none => if l.target = "" then some l.level else none

/-!
Theorems.
-/

theorem validate_loggers_go_append (xs : List Logger) : ∀ (seen rest : List Logger),
    xs.Nodup → (∀ x ∈ xs, x ∉ seen) →
    validate_loggers_go seen (xs ++ rest) = validate_loggers_go (xs.reverse ++ seen) rest := by
  induction xs with
  | nil => intro seen rest _ _; simp
  | cons x xs ih =>
    intro seen rest hnd hdisj
    have hx : x ∉ seen := hdisj x (by simp)
    simp only [List.cons_append, validate_loggers_go, if_neg hx, List.append_eq]
    rw [ih (x :: seen) rest (List.Nodup.of_cons hnd)]
    · simp [List.append_assoc]
    · intro y hy
      simp only [List.mem_cons, not_or]
      refine ⟨?_, hdisj y (List.mem_cons_of_mem x hy)⟩
      intro hyx
      exact (List.nodup_cons.mp hnd).1 (hyx ▸ hy)

theorem validate_loggers_nodup_ok (ls : List Logger) (h : ls.Nodup) :
    validate_loggers ls = .ok () := by
  have := validate_loggers_go_append ls [] [] h (by simp)
  simpa [validate_loggers, validate_loggers_go] using this

/-- C3: for every logger registry, validation iterates the descriptors in
declared order and fails with a duplicate-logger error naming the first
descriptor whose full structural value (name, target, level) repeats an
earlier one; two descriptors with the same name but a different target or
level are not duplicates, and a registry with no structural repeat passes. -/
theorem c3_duplicate_logger_detection :
    (∀ (pre suf : List Logger) (l : Logger), pre.Nodup → l ∈ pre →
      validate_loggers (pre ++ l :: suf) = .error (.DuplicateLoggerError (reprLogger l))) ∧
    (∀ l1 l2 : Logger, l1.name = l2.name → l1 ≠ l2 → validate_loggers [l1, l2] = .ok ()) ∧
    (∀ ls : List Logger, ls.Nodup → validate_loggers ls = .ok ()) := by
  refine ⟨?_, ?_, validate_loggers_nodup_ok⟩
  · intro pre suf l hnd hmem
    have h := validate_loggers_go_append pre [] (l :: suf) hnd (by simp)
    unfold validate_loggers
    rw [h]
    simp [validate_loggers_go, hmem]
  · intro l1 l2 _ hne
    exact validate_loggers_nodup_ok _ (by simp [hne])

/-- Witness for C3 at a concrete registry: a structural repeat of `dbLogger`
is reported, and the same name at a different level passes. -/
theorem c3_duplicate_logger_detection_witness :
    validate_loggers [dbLogger, dbLogger] =
      .error (.DuplicateLoggerError (reprLogger dbLogger)) ∧
    validate_loggers [dbLogger, { dbLogger with level := Level.info }] = .ok () :=
  ⟨c3_duplicate_logger_detection.1 [dbLogger] [] dbLogger (by decide) (by decide),
   c3_duplicate_logger_detection.2.1 dbLogger { dbLogger with level := Level.info }
     (by decide) (by decide)⟩

theorem eqIgnoreAsciiCase_eq (s a : String) :
    eqIgnoreAsciiCase s a = true ↔ s.data.map asciiLower = a.data.map asciiLower := by
  unfold eqIgnoreAsciiCase
  exact beq_iff_eq

theorem eqIC_unique (s a b : String)
    (hne : a.data.map asciiLower ≠ b.data.map asciiLower)
    (ha : eqIgnoreAsciiCase s a = true) : eqIgnoreAsciiCase s b = false := by
  cases hc : eqIgnoreAsciiCase s b with
  | false => rfl
  | true =>
    exact absurd (((eqIgnoreAsciiCase_eq s a).mp ha).symm.trans
      ((eqIgnoreAsciiCase_eq s b).mp hc)) hne

/-- C9: severity parsing succeeds exactly when the input case-insensitively
equals one of the six names trace, debug, info, warn, error, off, yielding
the corresponding severity, and fails on every other string. -/
theorem c9_severity_parsing (s : String) :
    (eqIgnoreAsciiCase s ("trace") = true → Level.fromStr s = some .trace) ∧
    (eqIgnoreAsciiCase s ("debug") = true → Level.fromStr s = some .debug) ∧
    (eqIgnoreAsciiCase s ("info") = true → Level.fromStr s = some .info) ∧
    (eqIgnoreAsciiCase s ("warn") = true → Level.fromStr s = some .warn) ∧
    (eqIgnoreAsciiCase s ("error") = true → Level.fromStr s = some .error) ∧
    (eqIgnoreAsciiCase s ("off") = true → Level.fromStr s = some .off) ∧
    (eqIgnoreAsciiCase s ("trace") = false → eqIgnoreAsciiCase s ("debug") = false →
     eqIgnoreAsciiCase s ("info") = false → eqIgnoreAsciiCase s ("warn") = false →
     eqIgnoreAsciiCase s ("error") = false → eqIgnoreAsciiCase s ("off") = false →
     Level.fromStr s = none) := by
  refine ⟨?_, ?_, ?_, ?_, ?_, ?_, ?_⟩
  · intro h; simp [Level.fromStr, h]
  · intro h
    have h1 := eqIC_unique s ("debug") ("trace") (by decide) h
    simp [Level.fromStr, h, h1]
  · intro h
    have h1 := eqIC_unique s ("info") ("trace") (by decide) h
    have h2 := eqIC_unique s ("info") ("debug") (by decide) h
    simp [Level.fromStr, h, h1, h2]
  · intro h
    have h1 := eqIC_unique s ("warn") ("trace") (by decide) h
    have h2 := eqIC_unique s ("warn") ("debug") (by decide) h
    have h3 := eqIC_unique s ("warn") ("info") (by decide) h
    simp [Level.fromStr, h, h1, h2, h3]
  · intro h
    have h1 := eqIC_unique s ("error") ("trace") (by decide) h
    have h2 := eqIC_unique s ("error") ("debug") (by decide) h
    have h3 := eqIC_unique s ("error") ("info") (by decide) h
    have h4 := eqIC_unique s ("error") ("warn") (by decide) h
    simp [Level.fromStr, h, h1, h2, h3, h4]
  · intro h
    have h1 := eqIC_unique s ("off") ("trace") (by decide) h
    have h2 := eqIC_unique s ("off") ("debug") (by decide) h
    have h3 := eqIC_unique s ("off") ("info") (by decide) h
    have h4 := eqIC_unique s ("off") ("warn") (by decide) h
    have h5 := eqIC_unique s ("off") ("error") (by decide) h
    simp [Level.fromStr, h, h1, h2, h3, h4, h5]
  · intro h1 h2 h3 h4 h5 h6
    simp [Level.fromStr, h1, h2, h3, h4, h5, h6]

/-- Witness for C9: `WARN` parses case-insensitively to `Warn`, and a string
matching none of the six names is rejected. -/
theorem c9_severity_parsing_witness :
    Level.fromStr ("WARN") = some Level.warn ∧ Level.fromStr ("verbose") = none :=
  ⟨(c9_severity_parsing ("WARN")).2.2.2.1 (by decide),
   (c9_severity_parsing ("verbose")).2.2.2.2.2.2 (by decide) (by decide) (by decide)
     (by decide) (by decide) (by decide)⟩

theorem foldl_withTargetsStep_targets (ls : List Logger) : ∀ (acc : Targets),
    (List.foldl withTargetsStep acc ls).targets =
      acc.targets ++ (ls.filter (fun l => !(l.target == ""))).map (fun l => (l.target, l.level)) := by
  induction ls with
  | nil => intro acc; simp
  | cons l ls ih =>
    intro acc
    simp only [List.foldl_cons, ih, List.filter_cons]
    by_cases h : l.target = ""
    · simp [withTargetsStep, h]
    · simp [withTargetsStep, h]

theorem foldl_withTargetsStep_default (ls : List Logger) : ∀ (acc : Targets),
    (List.foldl withTargetsStep acc ls).defaultLevel =
      (match lastDefaultLevel ls with
       | some d => some d
       | none => acc.defaultLevel) := by
  induction ls with
  | nil => intro acc; simp [lastDefaultLevel]
  | cons l ls ih =>
    intro acc
    simp only [List.foldl_cons, ih, lastDefaultLevel]
    cases hd : lastDefaultLevel ls with
    | some d => rfl
    | none =>
      by_cases h : l.target = ""
      · simp [withTargetsStep, h]
      · simp [withTargetsStep, h]

theorem lastDefaultLevel_eq_none (ls : List Logger) :
    lastDefaultLevel ls = none ↔ ∀ l ∈ ls, ¬(l.target = "") := by
  induction ls with
  | nil => simp [lastDefaultLevel]
  | cons l ls ih =>
    simp only [lastDefaultLevel, List.mem_cons]
    cases hd : lastDefaultLevel ls with
    | some d =>
      constructor
      · intro h; exact absurd h (by simp)
      · intro h
        exact absurd (ih.mpr (fun x hx => h x (Or.inr hx))) (by simp [hd])
    | none =>
      by_cases h : l.target = ""
      · simp [h]
      · simp only [if_neg h]
        constructor
        · intro _ x hx
          rcases hx with rfl | hx
          · exact h
          · exact (ih.mp hd) x hx
        · intro _; trivial

theorem lastDefaultLevel_mem (ls : List Logger) (d : Level) :
    lastDefaultLevel ls = some d → ∃ l ∈ ls, l.target = "" ∧ l.level = d := by
  induction ls with
  | nil => simp [lastDefaultLevel]
  | cons l ls ih =>
    simp only [lastDefaultLevel]
    cases hd : lastDefaultLevel ls with
    | some e =>
      intro h
      obtain ⟨x, hx, hxt, hxl⟩ := ih (hd.trans (by injection h with h; rw [h]))
      exact ⟨x, List.mem_cons_of_mem l hx, hxt, hxl⟩
    | none =>
      by_cases h : l.target = ""
      · simp only [if_pos h]
        intro he
        injection he with he
        exact ⟨l, List.mem_cons_self l ls, h, he⟩
      · simp [h]

/-- Admission characterization of a compiled filter, over the subscribed
descriptor list it was folded from, assuming at most one subscribed
descriptor has an empty target (the loader synthesizes exactly one default
descriptor per registry). -/
theorem buildTargets_admits_iff (ls : List Logger) (tag : String) (sev : Level)
    (huniq : ∀ l1 ∈ ls, l1.target = "" → ∀ l2 ∈ ls, l2.target = "" → l1 = l2) :
    (buildTargets ls).admits tag sev = true ↔
      ((∃ l ∈ ls, ¬(l.target = "") ∧ l.target = tag ∧ levelRank l.level ≤ levelRank sev) ∨
       ((¬ ∃ l ∈ ls, ¬(l.target = "") ∧ l.target = tag) ∧
        (∃ l ∈ ls, l.target = "" ∧ levelRank l.level ≤ levelRank sev))) := by
  have htgts := foldl_withTargetsStep_targets ls { targets := [], defaultLevel := none }
  have hdef := foldl_withTargetsStep_default ls { targets := [], defaultLevel := none }
  have hmatch : ((buildTargets ls).targets.any (fun p => p.1 == tag) = true) ↔
      (∃ l ∈ ls, ¬(l.target = "") ∧ l.target = tag) := by
    rw [buildTargets, htgts]
    simp only [List.nil_append, List.any_eq_true, List.mem_map, List.mem_filter,
      Bool.not_eq_true', beq_eq_false_iff_ne, ne_eq, beq_iff_eq]
    constructor
    · rintro ⟨p, ⟨l, ⟨hl, hne⟩, hpl⟩, htag⟩
      exact ⟨l, hl, hne, by rw [← hpl] at htag; exact htag⟩
    · rintro ⟨l, hl, hne, htag⟩
      exact ⟨(l.target, l.level), ⟨l, ⟨hl, hne⟩, rfl⟩, htag⟩
  have hlevel : ((buildTargets ls).targets.any
        (fun p => p.1 == tag && decide (levelRank p.2 ≤ levelRank sev)) = true) ↔
      (∃ l ∈ ls, ¬(l.target = "") ∧ l.target = tag ∧ levelRank l.level ≤ levelRank sev) := by
    rw [buildTargets, htgts]
    simp only [List.nil_append, List.any_eq_true, List.mem_map, List.mem_filter,
      Bool.not_eq_true', beq_eq_false_iff_ne, ne_eq, Bool.and_eq_true, beq_iff_eq,
      decide_eq_true_eq]
    constructor
    · rintro ⟨p, ⟨l, ⟨hl, hne⟩, hpl⟩, htag, hle⟩
      refine ⟨l, hl, hne, ?_, ?_⟩
      · rw [← hpl] at htag; exact htag
      · rw [← hpl] at hle; exact hle
    · rintro ⟨l, hl, hne, htag, hle⟩
      exact ⟨(l.target, l.level), ⟨l, ⟨hl, hne⟩, rfl⟩, htag, hle⟩
  unfold Targets.admits
  by_cases hc : (buildTargets ls).targets.any (fun p => p.1 == tag) = true
  · rw [if_pos hc, hlevel]
    have hm := hmatch.mp hc
    constructor
    · exact Or.inl
    · intro h
      rcases h with h | ⟨hno, _⟩
      · exact h
      · exact absurd hm hno
  · rw [if_neg hc]
    have hnom : ¬ ∃ l ∈ ls, ¬(l.target = "") ∧ l.target = tag := fun h => hc (hmatch.mpr h)
    have hnom2 : ¬ ∃ l ∈ ls, ¬(l.target = "") ∧ l.target = tag ∧
        levelRank l.level ≤ levelRank sev := by
      rintro ⟨l, hl, hne, htag, _⟩
      exact hnom ⟨l, hl, hne, htag⟩
    rw [buildTargets, hdef]
    cases hd : lastDefaultLevel ls with
    | some d =>
      show decide (levelRank d ≤ levelRank sev) = true ↔ _
      obtain ⟨l0, hl0, hl0t, hl0d⟩ := lastDefaultLevel_mem ls d hd
      constructor
      · intro h
        exact Or.inr ⟨hnom, ⟨l0, hl0, hl0t, by rw [hl0d]; exact of_decide_eq_true h⟩⟩
      · intro h
        rcases h with h | ⟨_, ⟨l, hl, hlt, hle⟩⟩
        · exact absurd h hnom2
        · have heq : l = l0 := huniq l hl hlt l0 hl0 hl0t
          rw [decide_eq_true_iff, ← hl0d, ← heq]
          exact hle
    | none =>
      show false = true ↔ _
      constructor
      · intro h; exact absurd h (by simp)
      · intro h
        rcases h with h | ⟨_, ⟨l, hl, hlt, _⟩⟩
        · exact absurd h hnom2
        · exact absurd hlt ((lastDefaultLevel_eq_none ls).mp hd l hl)

/-- C1: for every enabled appender — File or Console — the compiled route
admits an event exactly when the event's origin tag equals some configured
target of a subscribed logger descriptor and its severity is at or above
that descriptor's level, or otherwise (no configured target matches) when
its severity is at or above the level of the subscribed descriptor whose
target is empty; concretely, with subscribed descriptors
`{name: "db", target: "storage", level: Warn}` and
`{name: "default", target: "", level: Info}`, an event tagged `storage` at
Warn is admitted, an event with another tag at Info is admitted, and an
event tagged `storage` at Info is rejected.  (The admission decision of the
compiled filter itself is modelled from the spec; see `Targets.admits`.) -/
theorem c1_compiled_route_admission :
    (∀ (cfg : FileAppenderConfig) (registry : List Logger) (t : Targets) (lvl : Level)
       (w : String) (tag : String) (sev : Level),
      cfg.enable = true →
      init_logging_file_tracing cfg registry = .ok (t, lvl, w) →
      (∀ l1 ∈ subscribedLoggers registry cfg.logger_names, l1.target = "" →
       ∀ l2 ∈ subscribedLoggers registry cfg.logger_names, l2.target = "" → l1 = l2) →
      (t.admits tag sev = true ↔
        ((∃ l ∈ subscribedLoggers registry cfg.logger_names,
            ¬(l.target = "") ∧ l.target = tag ∧ levelRank l.level ≤ levelRank sev) ∨
         ((¬ ∃ l ∈ subscribedLoggers registry cfg.logger_names,
             ¬(l.target = "") ∧ l.target = tag) ∧
          (∃ l ∈ subscribedLoggers registry cfg.logger_names,
            l.target = "" ∧ levelRank l.level ≤ levelRank sev))))) ∧
    (∀ (cfg : ConsoleAppenderConfig) (registry : List Logger) (t : Targets) (lvl : Level)
       (w : String) (tag : String) (sev : Level),
      cfg.enable = true →
      init_logging_console_tracing cfg registry = .ok (t, lvl, w) →
      (∀ l1 ∈ subscribedLoggers registry cfg.logger_names, l1.target = "" →
       ∀ l2 ∈ subscribedLoggers registry cfg.logger_names, l2.target = "" → l1 = l2) →
      (t.admits tag sev = true ↔
        ((∃ l ∈ subscribedLoggers registry cfg.logger_names,
            ¬(l.target = "") ∧ l.target = tag ∧ levelRank l.level ≤ levelRank sev) ∨
         ((¬ ∃ l ∈ subscribedLoggers registry cfg.logger_names,
             ¬(l.target = "") ∧ l.target = tag) ∧
          (∃ l ∈ subscribedLoggers registry cfg.logger_names,
            l.target = "" ∧ levelRank l.level ≤ levelRank sev))))) ∧
    ((init_logging_file_tracing exampleAppender exampleRegistry).map
        (fun r => (r.1.admits ("storage") .warn, r.1.admits ("app") .info,
                   r.1.admits ("storage") .info)) = .ok (true, true, false)) ∧
    ((init_logging_console_tracing exampleConsoleAppender exampleRegistry).map
        (fun r => (r.1.admits ("storage") .warn, r.1.admits ("app") .info,
                   r.1.admits ("storage") .info)) = .ok (true, true, false)) := by
  refine ⟨?_, ?_, rfl, rfl⟩
  · intro cfg registry t lvl w tag sev _ hcompile huniq
    unfold init_logging_file_tracing at hcompile
    cases hwl : Level.as_tracing_level cfg.write_level with
    | none =>
      rw [hwl] at hcompile
      exact absurd hcompile (by simp)
    | some l =>
      rw [hwl] at hcompile
      injection hcompile with h
      have ht : t = buildTargets (subscribedLoggers registry cfg.logger_names) :=
        (congrArg Prod.fst h).symm
      rw [ht]
      exact buildTargets_admits_iff _ tag sev huniq
  · intro cfg registry t lvl w tag sev _ hcompile huniq
    unfold init_logging_console_tracing at hcompile
    cases hwl : Level.as_tracing_level cfg.write_level with
    | none =>
      rw [hwl] at hcompile
      exact absurd hcompile (by simp)
    | some l =>
      rw [hwl] at hcompile
      injection hcompile with h
      have ht : t = buildTargets (subscribedLoggers registry cfg.logger_names) :=
        (congrArg Prod.fst h).symm
      rw [ht]
      exact buildTargets_admits_iff _ tag sev huniq

/-- Witness for C1: the general admission characterizations for the file
appender and for the console appender, instantiated at the spec's
two-descriptor example, for an event tagged `storage` at Warn. -/
theorem c1_compiled_route_admission_witness :
    ((buildTargets (subscribedLoggers exampleRegistry exampleAppender.logger_names)).admits
        ("storage") .warn = true ↔
      ((∃ l ∈ subscribedLoggers exampleRegistry exampleAppender.logger_names,
          ¬(l.target = "") ∧ l.target = ("storage") ∧
          levelRank l.level ≤ levelRank Level.warn) ∨
       ((¬ ∃ l ∈ subscribedLoggers exampleRegistry exampleAppender.logger_names,
           ¬(l.target = "") ∧ l.target = ("storage")) ∧
        (∃ l ∈ subscribedLoggers exampleRegistry exampleAppender.logger_names,
          l.target = "" ∧ levelRank l.level ≤ levelRank Level.warn)))) ∧
    ((buildTargets
        (subscribedLoggers exampleRegistry exampleConsoleAppender.logger_names)).admits
        ("storage") .warn = true ↔
      ((∃ l ∈ subscribedLoggers exampleRegistry exampleConsoleAppender.logger_names,
          ¬(l.target = "") ∧ l.target = ("storage") ∧
          levelRank l.level ≤ levelRank Level.warn) ∨
       ((¬ ∃ l ∈ subscribedLoggers exampleRegistry exampleConsoleAppender.logger_names,
           ¬(l.target = "") ∧ l.target = ("storage")) ∧
        (∃ l ∈ subscribedLoggers exampleRegistry exampleConsoleAppender.logger_names,
          l.target = "" ∧ levelRank l.level ≤ levelRank Level.warn)))) :=
  ⟨c1_compiled_route_admission.1 exampleAppender exampleRegistry
    (buildTargets (subscribedLoggers exampleRegistry exampleAppender.logger_names))
    Level.info ("logs/app.log") ("storage") Level.warn rfl rfl (by decide),
   c1_compiled_route_admission.2.1 exampleConsoleAppender exampleRegistry
    (buildTargets (subscribedLoggers exampleRegistry exampleConsoleAppender.logger_names))
    Level.info ("stdout") ("storage") Level.warn rfl rfl (by decide)⟩

/-- C2: for every appender whose write level is `Off`: if the appender is
enabled, route compilation fails with `InvalidConfigValueError` naming the
write level; if it is disabled, it is skipped entirely, producing no
compiled route and attempting no resource acquisition (and likewise for the
console appender). -/
theorem c2_off_write_level :
    (∀ (cfg : FileAppenderConfig) (registry : List Logger),
      cfg.write_level = .off → cfg.enable = true →
      init_logging_file_tracing cfg registry =
        .error (.InvalidConfigValueError ("logging.file_appenders[?].write_level=Off"))) ∧
    (∀ (cfg : FileAppenderConfig) (registry : List Logger) (rest : List FileAppenderConfig),
      cfg.write_level = .off → cfg.enable = false →
      init_logging_files registry (cfg :: rest) = init_logging_files registry rest) ∧
    (∀ (cfg : ConsoleAppenderConfig) (registry : List Logger),
      cfg.write_level = .off → cfg.enable = true →
      init_logging_console_tracing cfg registry =
        .error (.InvalidConfigValueError ("logging.console_appender[?].write_level=Off"))) ∧
    (∀ (cfg : ConsoleAppenderConfig) (registry : List Logger),
      cfg.write_level = .off → cfg.enable = false →
      init_logging_console registry (some cfg) = .ok none) := by
  refine ⟨?_, ?_, ?_, ?_⟩
  · intro cfg registry hwl _
    simp [init_logging_file_tracing, hwl, Level.as_tracing_level, Level.as_str]
  · intro cfg registry rest _ hen
    simp [init_logging_files, hen]
  · intro cfg registry hwl _
    simp [init_logging_console_tracing, hwl, Level.as_tracing_level, Level.as_str]
  · intro cfg registry _ hen
    simp [init_logging_console, hen]

/-- Witness for C2: a concrete enabled file appender with write level `Off`
is rejected, and the same appender disabled is skipped without producing a
route. -/
theorem c2_off_write_level_witness :
    init_logging_file_tracing { exampleAppender with write_level := .off } exampleRegistry =
      .error (.InvalidConfigValueError ("logging.file_appenders[?].write_level=Off")) ∧
    init_logging_files exampleRegistry
      [{ exampleAppender with write_level := .off, enable := false }] = .ok [] :=
  ⟨c2_off_write_level.1 { exampleAppender with write_level := .off } exampleRegistry rfl rfl,
   c2_off_write_level.2.1 { exampleAppender with write_level := .off, enable := false }
     exampleRegistry [] rfl rfl⟩

theorem find?_not_mem_none (ns names : List String) (h : ∀ n ∈ names, n ∈ ns) :
    List.find? (fun n => !decide (n ∈ ns)) names = none := by
  rw [List.find?_eq_none]
  intro n hn
  simpa using h n hn

/-- When a later File appender's resolved path equals an earlier one's as a
path (component-wise), the pass stops at the later appender with a
duplicate-path error carrying the later appender's rendered path (the
earlier appender's logger names must all resolve, or its own name check
fires first). -/
theorem vfa_second_duplicate (ns : List String) (a1 a2 : FileAppenderConfig)
    (fs : List String) (h1 : ∀ n ∈ a1.logger_names, n ∈ ns)
    (hp : pathComponents a2.file_path = pathComponents a1.file_path) :
    (validate_file_appender ns [a1, a2] fs).2 =
      .error (.DuplicateLogFilePathError a2.file_path) := by
  unfold validate_file_appender validate_file_appender_go
  simp only [List.any_nil, Bool.false_eq_true, if_false]
  unfold validate_file_appender_go
  simp [hp, find?_not_mem_none ns a1.logger_names h1]

/-- Two File appenders whose resolved paths differ as paths
(component-wise) and whose logger names all resolve pass the File-appender
validation. -/
theorem vfa_two_distinct_ok (ns : List String) (a1 a2 : FileAppenderConfig)
    (fs : List String) (hp : ¬(pathComponents a2.file_path = pathComponents a1.file_path))
    (h1 : ∀ n ∈ a1.logger_names, n ∈ ns)
    (h2 : ∀ n ∈ a2.logger_names, n ∈ ns) :
    (validate_file_appender ns [a1, a2] fs).2 = .ok () := by
  have hp' : ¬(pathComponents a1.file_path = pathComponents a2.file_path) :=
    fun h => hp h.symm
  unfold validate_file_appender validate_file_appender_go
  simp only [List.any_nil, Bool.false_eq_true, if_false]
  unfold validate_file_appender_go
  simp [validate_file_appender_go, hp, hp', find?_not_mem_none ns a1.logger_names h1,
    find?_not_mem_none ns a2.logger_names h2]

/-- C4 counterexample: the claim fails in both directions at concrete
inputs.  First, collision is not by exact string equality of the resolved
paths: directories `logs` and `logs//` resolve to the distinct strings
`logs/app.log` and `logs//app.log`, yet validation fails with a
duplicate-path error, because the source's `HashSet<&Path>` compares `Path`
values component-wise.  Second, changing the directory of one appender of a
failing pair need not make validation succeed: changing `logs` to `logs/`
is a change of the directory, yet validation still fails. -/
theorem c4_duplicate_path_counterexample :
    ¬((fileAppenderFromSerde c4SerdeC).file_path =
        (fileAppenderFromSerde c4SerdeA).file_path) ∧
    (validate_file_appender []
        [fileAppenderFromSerde c4SerdeA, fileAppenderFromSerde c4SerdeC] []).2 =
      .error (.DuplicateLogFilePathError ("logs//app.log")) ∧
    ¬(c4SerdeB.file_dir = c4SerdeA.file_dir) ∧
    (validate_file_appender []
        [fileAppenderFromSerde c4SerdeA, fileAppenderFromSerde c4SerdeB] []).2 =
      .error (.DuplicateLogFilePathError ("logs/app.log")) :=
  ⟨by decide, rfl, by decide, rfl⟩

/-- C4 (amended): two File appenders whose resolved full paths are equal as
paths — component-wise, with repeated separators, trailing separators and
non-leading `.` segments normalized away, as `Path` equality compares —
fail validation with a duplicate-path error reporting the later appender's
rendered path; a pair whose resolved paths differ component-wise passes;
and the resolved path is exactly the configured directory (defaulted when
absent) joined with the file name, so a change to directory or file name
removes the failure exactly when the new resolved path differs
component-wise from the other appender's. -/
theorem c4_duplicate_path_amended :
    (∀ (ns : List String) (a1 a2 : FileAppenderConfig) (fs : List String),
      (∀ n ∈ a1.logger_names, n ∈ ns) →
      pathComponents a2.file_path = pathComponents a1.file_path →
      (validate_file_appender ns [a1, a2] fs).2 =
        .error (.DuplicateLogFilePathError a2.file_path)) ∧
    (∀ (ns : List String) (a1 a2 : FileAppenderConfig) (fs : List String),
      ¬(pathComponents a2.file_path = pathComponents a1.file_path) →
      (∀ n ∈ a1.logger_names, n ∈ ns) → (∀ n ∈ a2.logger_names, n ∈ ns) →
      (validate_file_appender ns [a1, a2] fs).2 = .ok ()) ∧
    (∀ s : FileAppenderConfigSerde,
      (fileAppenderFromSerde s).file_path =
        pathJoin (s.file_dir.getD DEFAULT_LOG_FOLDER) s.file_name) := by
  refine ⟨vfa_second_duplicate, vfa_two_distinct_ok, ?_⟩
  intro s
  cases h : s.file_dir with
  | none => simp [fileAppenderFromSerde, h]
  | some d => simp [fileAppenderFromSerde, h]

/-- Witness for C4 (amended): the pair whose rendered paths differ only in
a repeated separator collides component-wise and fails with the later
appender's rendered path, and replacing the second file name yields
component-wise distinct paths and the pair passes. -/
theorem c4_duplicate_path_amended_witness :
    (validate_file_appender []
        [fileAppenderFromSerde c4SerdeA, fileAppenderFromSerde c4SerdeC] []).2 =
      .error (.DuplicateLogFilePathError
        (fileAppenderFromSerde c4SerdeC).file_path) ∧
    (validate_file_appender []
        [fileAppenderFromSerde c4SerdeA,
         fileAppenderFromSerde { c4SerdeA with file_name := "b.log" }] []).2 = .ok () :=
  ⟨c4_duplicate_path_amended.1 [] (fileAppenderFromSerde c4SerdeA)
      (fileAppenderFromSerde c4SerdeC) [] (by simp [c4SerdeA, fileAppenderFromSerde])
      (by decide),
   c4_duplicate_path_amended.2.1 [] (fileAppenderFromSerde c4SerdeA)
      (fileAppenderFromSerde { c4SerdeA with file_name := "b.log" }) [] (by decide)
      (by simp [c4SerdeA, fileAppenderFromSerde])
      (by simp [c4SerdeA, fileAppenderFromSerde])⟩

/-- C5 counterexample: `c5Config` declares only the logger names `app` (and
no others), its second appender references the unknown name `ghost` and
collides with the first appender's resolved path, yet full validation
reports the duplicate-path error, not the unknown-logger-name error the
claim predicts. -/
theorem c5_order_counterexample :
    ¬(("ghost") ∈ all_logger_name c5Config) ∧
    c5Appender2.file_path = c5Appender1.file_path ∧
    (("ghost") ∈ c5Appender2.logger_names) ∧
    (LoggingConfig.validate c5Config []).2 =
      .error (.DuplicateLogFilePathError ("logs/a.log")) :=
  ⟨by decide, rfl, by decide, rfl⟩

/-- C5 (amended): validation checks loggers, then File appenders in declared
order, then the console appender; within one File appender the
duplicate-path check precedes the unknown-logger-name check.  Hence an
unknown name on an appender preceding the collision is reported first,
while an unknown name on the colliding appender itself, or on the console
appender, loses to the duplicate-path error. -/
theorem c5_check_order_amended :
    (∀ (ns : List String) (a1 : FileAppenderConfig) (rest : List FileAppenderConfig)
       (fs : List String) (m : String),
      a1.logger_names.find? (fun n => !ns.contains n) = some m →
      (validate_file_appender ns (a1 :: rest) fs).2 =
        .error (.InvalidConfigValueError (wrongLoggerMsg m a1))) ∧
    (∀ (ns : List String) (a1 a2 : FileAppenderConfig) (fs : List String),
      (∀ n ∈ a1.logger_names, n ∈ ns) → a2.file_path = a1.file_path →
      (validate_file_appender ns [a1, a2] fs).2 =
        .error (.DuplicateLogFilePathError a2.file_path)) ∧
    (∀ (lgs : AllLogger) (a1 a2 : FileAppenderConfig) (cc : ConsoleAppenderConfig)
       (fs : List String),
      validate_loggers lgs.loggers = .ok () →
      (∀ n ∈ a1.logger_names, n ∈ lgs.loggers.map Logger.name) →
      a2.file_path = a1.file_path →
      (LoggingConfig.validate
          { all_logger := lgs, file_appenders := [a1, a2], console_appender := some cc }
          fs).2 =
        .error (.DuplicateLogFilePathError a2.file_path)) := by
  refine ⟨?_, ?_, ?_⟩
  · intro ns a1 rest fs m hfind
    unfold validate_file_appender validate_file_appender_go
    simp only [List.any_nil, Bool.false_eq_true, if_false]
    rw [hfind]
  · intro ns a1 a2 fs h1 hp
    exact vfa_second_duplicate ns a1 a2 fs h1 (by rw [hp])
  · intro lgs a1 a2 cc fs hvl hnames hp
    unfold LoggingConfig.validate
    rw [hvl]
    have hfa := vfa_second_duplicate (all_logger_name
      { all_logger := lgs, file_appenders := [a1, a2], console_appender := some cc })
      a1 a2 fs hnames (by rw [hp])
    rcases hres : validate_file_appender (all_logger_name
      { all_logger := lgs, file_appenders := [a1, a2], console_appender := some cc })
      [a1, a2] fs with ⟨fs', r⟩
    rw [hres] at hfa
    simp at hfa
    simp [hres, hfa]

/-- Witness for C5 (amended): with registry names `["app"]`, an appender
whose first unknown name is `ghost` is reported when it comes first, and
the duplicate-path error is reported when the unknown name sits on the
colliding second appender. -/
theorem c5_check_order_amended_witness :
    (validate_file_appender ["app"] [c5Appender2] []).2 =
      .error (.InvalidConfigValueError (wrongLoggerMsg ("ghost") c5Appender2)) ∧
    (validate_file_appender ["app"] [c5Appender1, c5Appender2] []).2 =
      .error (.DuplicateLogFilePathError c5Appender2.file_path) :=
  ⟨c5_check_order_amended.1 ["app"] c5Appender2 [] [] ("ghost") rfl,
   c5_check_order_amended.2.1 ["app"] c5Appender1 c5Appender2 [] (by decide) rfl⟩

theorem ensure_log_directory_self_mem (fs : List String) (dir : String) :
    dir ∈ ensure_log_directory fs dir := by
  unfold ensure_log_directory
  by_cases h : fs.contains dir = true
  · rw [if_pos h]
    exact List.mem_of_elem_eq_true h
  · rw [if_neg h]
    simp

theorem ensure_log_directory_mono (fs : List String) (dir x : String) (h : x ∈ fs) :
    x ∈ ensure_log_directory fs dir := by
  unfold ensure_log_directory
  by_cases hc : fs.contains dir = true
  · rw [if_pos hc]; exact h
  · rw [if_neg hc]; exact List.mem_append_left _ h

/-- The directory state only grows along the File-appender pass. -/
theorem vfa_go_fs_mono (ns : List String) (cfgs : List FileAppenderConfig) :
    ∀ (fs pathSeen : List String) (x : String), x ∈ fs →
      x ∈ (validate_file_appender_go ns cfgs fs pathSeen).1 := by
  induction cfgs with
  | nil => intro fs pathSeen x hx; exact hx
  | cons cfg rest ih =>
    intro fs pathSeen x hx
    unfold validate_file_appender_go
    by_cases hdup : pathSeen.any (fun p => pathComponents p == pathComponents cfg.file_path) = true
    · rw [if_pos hdup]
      exact ensure_log_directory_mono fs cfg.file_dir x hx
    · rw [if_neg hdup]
      cases hf : cfg.logger_names.find? (fun n => !ns.contains n) with
      | some n =>
        simp only [hf]
        exact ensure_log_directory_mono fs cfg.file_dir x hx
      | none =>
        simp only [hf]
        exact ih _ _ x (ensure_log_directory_mono fs cfg.file_dir x hx)

/-- The head appender's directory is ensured no matter how the pass ends. -/
theorem vfa_go_head_dir (ns : List String) (cfg : FileAppenderConfig)
    (rest : List FileAppenderConfig) (fs pathSeen : List String) :
    cfg.file_dir ∈ (validate_file_appender_go ns (cfg :: rest) fs pathSeen).1 := by
  unfold validate_file_appender_go
  by_cases hdup : pathSeen.any (fun p => pathComponents p == pathComponents cfg.file_path) = true
  · rw [if_pos hdup]
    exact ensure_log_directory_self_mem fs cfg.file_dir
  · rw [if_neg hdup]
    cases hf : cfg.logger_names.find? (fun n => !ns.contains n) with
    | some n =>
      simp only [hf]
      exact ensure_log_directory_self_mem fs cfg.file_dir
    | none =>
      simp only [hf]
      exact vfa_go_fs_mono ns rest _ _ _ (ensure_log_directory_self_mem fs cfg.file_dir)

/-- C10: validation processes every File appender regardless of its enable
flag — a disabled appender still triggers creation of its output directory,
still participates in duplicate-path detection, and still fails validation
on an unknown logger name — and a directory ensured for an appender
processed before a failing one remains in the final directory state
(validation is not atomic in this side effect). -/
theorem c10_disabled_appenders_validated :
    (∀ (ns : List String) (cfg : FileAppenderConfig) (rest : List FileAppenderConfig)
       (fs : List String),
      cfg.enable = false →
      cfg.file_dir ∈ (validate_file_appender ns (cfg :: rest) fs).1) ∧
    (∀ (ns : List String) (a1 a2 : FileAppenderConfig) (fs : List String),
      a1.enable = false → a2.enable = false →
      (∀ n ∈ a1.logger_names, n ∈ ns) → a2.file_path = a1.file_path →
      (validate_file_appender ns [a1, a2] fs).2 =
        .error (.DuplicateLogFilePathError a2.file_path)) ∧
    (∀ (ns : List String) (cfg : FileAppenderConfig) (fs : List String) (m : String),
      cfg.enable = false →
      cfg.logger_names.find? (fun n => !ns.contains n) = some m →
      (validate_file_appender ns [cfg] fs).2 =
        .error (.InvalidConfigValueError (wrongLoggerMsg m cfg))) ∧
    (∀ (ns : List String) (cfgs : List FileAppenderConfig) (fs : List String) (x : String),
      x ∈ fs → x ∈ (validate_file_appender ns cfgs fs).1) := by
  refine ⟨?_, ?_, ?_, ?_⟩
  · intro ns cfg rest fs _
    exact vfa_go_head_dir ns cfg rest fs []
  · intro ns a1 a2 fs _ _ h1 hp
    exact vfa_second_duplicate ns a1 a2 fs h1 (by rw [hp])
  · intro ns cfg fs m _ hfind
    unfold validate_file_appender validate_file_appender_go
    simp only [List.any_nil, Bool.false_eq_true, if_false]
    rw [hfind]
  · intro ns cfgs fs x hx
    exact vfa_go_fs_mono ns cfgs fs [] x hx

/-- Witness for C10: a disabled appender's directory is created, a disabled
colliding pair still fails with the duplicate-path error, a disabled
appender with an unknown logger name still fails, and the directory created
for the first appender survives the failure. -/
theorem c10_disabled_appenders_validated_witness :
    (("logs") ∈ (validate_file_appender ["app"]
        [{ c5Appender1 with enable := false }] []).1) ∧
    ((validate_file_appender ["app"]
        [{ c5Appender1 with enable := false }, { c5Appender2 with enable := false }] []).2 =
      .error (.DuplicateLogFilePathError c5Appender2.file_path)) ∧
    ((validate_file_appender ["app"] [{ c5Appender2 with enable := false }] []).2 =
      .error (.InvalidConfigValueError
        (wrongLoggerMsg ("ghost") { c5Appender2 with enable := false }))) :=
  ⟨c10_disabled_appenders_validated.1 ["app"] { c5Appender1 with enable := false } [] [] rfl,
   c10_disabled_appenders_validated.2.1 ["app"] { c5Appender1 with enable := false }
     { c5Appender2 with enable := false } [] rfl rfl (by decide) rfl,
   c10_disabled_appenders_validated.2.2.1 ["app"] { c5Appender2 with enable := false } []
     ("ghost") rfl rfl⟩

/-- C6: the strict-schema claim holds at the logging aggregate, the logger
registry, a logger descriptor and the console appender, but an unknown
field inside a file appender is silently ignored: `Deserialize` for
`FileAppenderConfig` delegates to `FileAppenderConfigSerde` (via
`#[serde(from = …)]`), which carries no `deny_unknown_fields`, so the
`deny_unknown_fields` the source writes on `FileAppenderConfig` itself is
inert.  The first conjunct evaluates the failing input: deserialization
succeeds despite the undeclared field `bogus`. -/
theorem c6_unknown_field_behaviour :
    deserializeFileAppenderConfig c6FileInput =
      .ok (fileAppenderFromSerde
        { enable := true, write_level := none, file_dir := none, file_max_size := 0,
          file_max_count := 0, file_name := "a.log", logger_names := [] }) ∧
    deserializeLogger (.obj [(("bogus"), .null)]) = .error ("unknown field bogus") ∧
    deserializeAllLogger (.obj [(("bogus"), .null)]) = .error ("unknown field bogus") ∧
    deserializeConsoleAppenderConfig (.obj [(("bogus"), .null)]) =
      .error ("unknown field bogus") ∧
    deserializeLoggingConfig (.obj [(("bogus"), .null)]) = .error ("unknown field bogus") :=
  ⟨rfl, rfl, rfl, rfl, rfl⟩

/-- C7 counterexample: a console appender deserialized from an empty object
has `enable = false` (the derived `Default` of the struct), not the
"enabled" the claim states; and a file appender missing `file_max_size` is
a missing-field error rather than defaulting to zero
(`FileAppenderConfigSerde` has no `default` attribute; the one on
`FileAppenderConfig` is inert because of `from`). -/
theorem c7_defaults_counterexample :
    (deserializeConsoleAppenderConfig (JValue.obj [])).map ConsoleAppenderConfig.enable =
      .ok false ∧
    deserializeFileAppenderSerde c7MissingSizeInput =
      .error ("missing field file_max_size") :=
  ⟨rfl, rfl⟩

/-- C7 (amended): an absent `write_level` defaults to Info (for a file
appender through the `From` conversion, and for the console appender
through its struct default); an absent console-appender `enable` flag
defaults to DISABLED; absent file rotation counters are a missing-field
deserialization error, not a zero default. -/
theorem c7_field_defaults_amended :
    deserializeFileAppenderConfig (JValue.obj fileAppenderInputFields) =
      .ok { enable := true, write_level := .info, file_dir := "./logs",
            file_path := "./logs/a.log", file_max_size := 0, file_max_count := 0,
            file_name := "a.log", logger_names := [] } ∧
    deserializeConsoleAppenderConfig (JValue.obj []) =
      .ok { enable := false, write_level := .info, logger_names := [] } ∧
    deserializeFileAppenderSerde c7MissingSizeInput =
      .error ("missing field file_max_size") ∧
    (∀ s : FileAppenderConfigSerde, s.write_level = none →
      (fileAppenderFromSerde s).write_level = .info) := by
  refine ⟨rfl, rfl, rfl, ?_⟩
  intro s h
  simp [fileAppenderFromSerde, h]

/-- Witness for C7 (amended): the general absent-write-level rule applied to
a concrete serde value. -/
theorem c7_field_defaults_amended_witness :
    (fileAppenderFromSerde
      { enable := false, write_level := none, file_dir := none, file_max_size := 0,
        file_max_count := 0, file_name := "x.log", logger_names := [] }).write_level =
      Level.info :=
  c7_field_defaults_amended.2.2.2
    { enable := false, write_level := none, file_dir := none, file_max_size := 0,
      file_max_count := 0, file_name := "x.log", logger_names := [] } rfl

/-- C8 counterexample: deserializing a logger descriptor whose explicit
`target` value is the empty string FAILS (`non_empty` is applied to
`target` just as to `name` in log.rs), contradicting the claim that only an
empty name is rejected. -/
theorem c8_empty_target_counterexample :
    deserializeLogger c8EmptyTargetInput = .error ("value must not be empty") :=
  rfl

/-- C8 (amended): a descriptor's name must be non-empty and an explicitly
empty target is likewise rejected; an absent `target` field defaults to the
empty string, and the match-everything default descriptor arises only from
the synthesized default built from `default_level`/`default_name`. -/
theorem c8_target_nonempty_amended :
    deserializeLogger c8EmptyNameInput = .error ("value must not be empty") ∧
    deserializeLogger c8EmptyTargetInput = .error ("value must not be empty") ∧
    deserializeLogger c8AbsentTargetInput =
      .ok { target := "", level := .warn, name := "db" } ∧
    (∀ s : AllLoggerSerde, (allLoggerFromSerde s).loggers =
      s.loggers ++ [{ target := "", level := s.default_level, name := s.default_name }]) :=
  ⟨rfl, rfl, rfl, fun _ => rfl⟩

/-- Witness for C8 (amended): the synthesized default descriptor of a
concrete registry has the empty target. -/
theorem c8_target_nonempty_amended_witness :
    (allLoggerFromSerde
      { loggers := [], default_level := .info, default_name := "root" }).loggers =
      [{ target := "", level := Level.info, name := "root" }] :=
  c8_target_nonempty_amended.2.2.2
    { loggers := [], default_level := .info, default_name := "root" }
